import Mathlib

/-!
Shallow embedding of the client-side interaction layer of the personal
portfolio site (src/js/main.js): navigation menu controller, menu focus
trap, smooth-scroll controller, active-link marker, theme controller and
lightbox controller.  DOM elements are identified by natural numbers,
attributes by `Option String` (with `none` for an absent attribute, as
`getAttribute` returns `null`), and browser-local storage by an
`Option String` (`none` when no value is stored under the key).
-/

namespace PersonalSite

/-- JavaScript `s.endsWith(pat)` (no end-position argument): `pat` is a
suffix of `s`. -/
def jsEndsWith (s pat : String) : Bool :=
  pat.data.isSuffixOf s.data

/-- JavaScript falsiness of a nullable string: `null` and the empty
string are falsy, every other string is truthy. -/
def isFalsyStr : Option String → Bool
  | none => true
  | some v => v == ""

/-! ## Theme controller (initDarkMode, src/js/main.js lines 148-171) -/

/-- The observable state the theme controller reads and writes:
the `data-theme` attribute on the document root, the value stored in
local storage under the key `theme`, the environment's
`prefers-color-scheme: dark` media query, and the toggle button's
`aria-label`. -/
structure ThemeState where
  dataTheme : Option String
  storedTheme : Option String
  systemPrefersDark : Bool
  toggleLabel : Option String
deriving DecidableEq

/-- Initialization step of `initDarkMode` (lines 153-158): read the saved
preference and the system preference; apply the dark marker when the
saved value is exactly the string dark, or when the saved value is falsy
(absent or empty) and the system prefers dark. -/
def initDarkMode (s : ThemeState) : ThemeState :=
  let savedTheme := s.storedTheme
  let systemPrefersDark := s.systemPrefersDark
  if savedTheme == some "dark" || (isFalsyStr savedTheme && systemPrefersDark) then
    { s with dataTheme := some "dark" }
  else
    s

/-- Click handler registered on `.theme-toggle` (lines 160-170): read the
current `data-theme` attribute, compute the opposite mode, apply it,
persist it, and update the button's `aria-label`. -/
def toggleTheme (s : ThemeState) : ThemeState :=
  let currentTheme := s.dataTheme
  let newTheme := if currentTheme == some "dark" then "light" else "dark"
  let label := if newTheme == "dark" then "Switch to light mode" else "Switch to dark mode"
  { s with dataTheme := some newTheme
         , storedTheme := some newTheme
         , toggleLabel := some label }

/-- An operation of the theme controller: initialization or a click on
the toggle. -/
inductive ThemeOp
  | init
  | toggle
deriving DecidableEq

/-- Apply one theme-controller operation. -/
def applyThemeOp : ThemeOp → ThemeState → ThemeState
  | ThemeOp.init, s => initDarkMode s
  | ThemeOp.toggle, s => toggleTheme s

/-- Apply a sequence of theme-controller operations, left to right. -/
def applyThemeOps : List ThemeOp → ThemeState → ThemeState
  | [], s => s
  | op :: ops, s => applyThemeOps ops (applyThemeOp op s)

/-! ## Navigation controller (initNavigation and helpers, lines 16-93) -/

/-- The observable state of the navigation controller: whether the menu
element carries the class active, the trigger's `aria-expanded`
attribute, the ids of the `.nav-link` elements inside the menu in
document order, the id of `document.activeElement`, and the id of the
`.nav-toggle` trigger. -/
structure NavState where
  menuActive : Bool
  ariaExpanded : Option String
  navLinks : List Nat
  focused : Nat
  toggleId : Nat
deriving DecidableEq

/-- `openMenu` (lines 56-65): add the class active, set
`aria-expanded` to true, and focus the first `.nav-link` when one
exists. -/
def openMenu (s : NavState) : NavState :=
  let s := { s with menuActive := true, ariaExpanded := some "true" }
  match s.navLinks.head? with
  | some firstLink => { s with focused := firstLink }
  | none => s

/-- `closeMenu` (lines 70-73): remove the class active and set
`aria-expanded` to false. -/
def closeMenu (s : NavState) : NavState :=
  { s with menuActive := false, ariaExpanded := some "false" }

/-- `toggleMenu` (lines 43-51): dispatch to close when the menu carries
the class active and to open otherwise. -/
def toggleMenu (s : NavState) : NavState :=
  let isOpen := s.menuActive
  if isOpen then closeMenu s else openMenu s

/-- The document click listener (lines 22-26) for a click whose target
lies outside both the trigger and the menu: close the menu
unconditionally. -/
def outsideClick (s : NavState) : NavState :=
  closeMenu s

/-- The document keydown listener (lines 29-34) for the Escape key:
when the menu carries the class active, close it and focus the
trigger; otherwise do nothing. -/
def escapeKey (s : NavState) : NavState :=
  if s.menuActive then
    { closeMenu s with focused := s.toggleId }
  else
    s

/-- An operation on the navigation menu: open, close, toggle, a click
outside trigger and menu, or an Escape keydown. -/
inductive NavOp
  | openMenu
  | closeMenu
  | toggleMenu
  | outsideClick
  | escape
deriving DecidableEq

/-- Apply one navigation operation. -/
def applyNavOp : NavOp → NavState → NavState
  | NavOp.openMenu, s => openMenu s
  | NavOp.closeMenu, s => closeMenu s
  | NavOp.toggleMenu, s => toggleMenu s
  | NavOp.outsideClick, s => outsideClick s
  | NavOp.escape, s => escapeKey s

/-- Apply a sequence of navigation operations, left to right. -/
def applyNavOps : List NavOp → NavState → NavState
  | [], s => s
  | op :: ops, s => applyNavOps ops (applyNavOp op s)

/-- A keyboard event as the focus trap reads it: the key name and the
shift modifier. -/
structure KeyEvent where
  key : String
  shiftKey : Bool
deriving DecidableEq

/-- `handleMenuKeydown` (lines 78-93): the focus trap on the menu.
Returns the new state and whether `preventDefault` was called.  The
first and last `.nav-link` are compared against `document.activeElement`
(`head?`/`getLast?` are `none` when the link list is empty, in which
case neither comparison with the focused element can succeed, matching
`undefined === element` being false in JavaScript). -/
def handleMenuKeydown (s : NavState) (e : KeyEvent) : NavState × Bool :=
  let menuLinks := s.navLinks
  let firstLink := menuLinks.head?
  let lastLink := menuLinks.getLast?
  if e.key == "Tab" then
    if e.shiftKey && (some s.focused == firstLink) then
      match lastLink with
      | some l => ({ s with focused := l }, true)
      | none => (s, true)
    else if !e.shiftKey && (some s.focused == lastLink) then
      match firstLink with
      | some l => ({ s with focused := l }, true)
      | none => (s, true)
    else
      (s, false)
  else
    (s, false)

/-! ## Smooth-scroll controller (initSmoothScroll, lines 98-120) -/

/-- The observable outcome of the click handler bound to an anchor:
whether `preventDefault` was called, which element was scrolled into
view, which element had `tabindex` set to -1, and which element
received focus (`none` everywhere when the click falls through to the
default browser action). -/
structure ScrollResult where
  preventedDefault : Bool
  scrolledTo : Option Nat
  tabindexSet : Option Nat
  focusMovedTo : Option Nat
deriving DecidableEq

/-- The click handler of `initSmoothScroll` (lines 102-118) for an
anchor with the given href, over a document query function mapping a
selector to the matching element when one exists. -/
def anchorClick (href : String) (query : String → Option Nat) : ScrollResult :=
  let targetId := href
  if targetId == "#" then
    { preventedDefault := false, scrolledTo := none
    , tabindexSet := none, focusMovedTo := none }
  else
    match query targetId with
    | some targetElement =>
        { preventedDefault := true, scrolledTo := some targetElement
        , tabindexSet := some targetElement, focusMovedTo := some targetElement }
    | none =>
        { preventedDefault := false, scrolledTo := none
        , tabindexSet := none, focusMovedTo := none }

/-! ## Active-link marker (updateActiveNav, lines 125-143) -/

/-- A navigation link as `updateActiveNav` reads and writes it: its
href attribute, whether it carries the class active, and its
`aria-current` attribute. -/
structure NavLink where
  href : String
  hasActiveClass : Bool
  ariaCurrent : Option String
deriving DecidableEq

/-- The activity test of `updateActiveNav` (lines 131-133): the current
path ends with the href, or the path is the root slash and the href is
index.html, or the path ends with a slash and the href is index.html. -/
def linkIsActive (currentPath href : String) : Bool :=
  jsEndsWith currentPath href ||
    (currentPath == "/" && href == "index.html") ||
    (jsEndsWith currentPath "/" && href == "index.html")

/-- The per-link body of `updateActiveNav` (lines 129-142): on a match
add the class active and set `aria-current` to page, otherwise remove
both. -/
def updateLink (currentPath : String) (link : NavLink) : NavLink :=
  if linkIsActive currentPath link.href then
    { link with hasActiveClass := true, ariaCurrent := some "page" }
  else
    { link with hasActiveClass := false, ariaCurrent := none }

/-- `updateActiveNav` (lines 125-143) over the list of `.nav-link`
elements. -/
def updateActiveNav (currentPath : String) (links : List NavLink) : List NavLink :=
  links.map (updateLink currentPath)

/-! ## Lightbox controller (initLightbox, lines 176-225) -/

/-- The elements `initLightbox` queries (lines 177-180): the overlay,
the inner image, the close button (each `none` when absent from the
document), and the gallery images in document order. -/
structure LightboxDoc where
  lightbox : Option Nat
  lightboxImg : Option Nat
  lightboxClose : Option Nat
  galleryImages : List Nat
deriving DecidableEq

/-- A listener attached by `initLightbox`: the click and Enter-keydown
openers on each gallery image, the close-button click, the overlay
backdrop click, and the document Escape keydown. -/
inductive LbListener
  | imgClick (img : Nat)
  | imgKeydown (img : Nat)
  | closeClick
  | overlayClick
  | docKeydown
deriving DecidableEq

/-- The outcome of running `initLightbox`: the listeners attached, in
order, and the uncaught error when one is raised partway through. -/
structure LbInitResult where
  listeners : List LbListener
  raisedError : Option String
deriving DecidableEq

/-- `initLightbox` (lines 176-225).  The guard (line 182) returns
before attaching anything when the overlay is absent or the gallery is
empty.  Past the guard, the per-image openers are attached first
(lines 185-204); then line 212 calls `addEventListener` on the close
button, which raises a TypeError when that element is absent; the
remaining listeners (lines 212-224) need only the overlay. -/
def initLightbox (d : LightboxDoc) : LbInitResult :=
  if d.lightbox == none || d.galleryImages == [] then
    { listeners := [], raisedError := none }
  else
    let imgListeners := d.galleryImages.flatMap
      (fun img => [LbListener.imgClick img, LbListener.imgKeydown img])
    match d.lightboxClose with
    | none =>
        { listeners := imgListeners
        , raisedError := some "TypeError: cannot read addEventListener of null" }
    | some _ =>
        { listeners := imgListeners ++
            [LbListener.closeClick, LbListener.overlayClick, LbListener.docKeydown]
        , raisedError := none }

/-! ## Invariant definitions used by the claims -/

/-- The set of values the data-theme attribute ranges over: absent,
dark, or light. -/
def themeAttrOk (a : Option String) : Prop :=
  a = none ∨ a = some "dark" ∨ a = some "light"

/-- The synchronization invariant of the navigation controller: the
trigger's `aria-expanded` attribute is the string true exactly when the
menu element carries the class active, and the string false exactly
when it does not. -/
def ariaSynced (s : NavState) : Prop :=
  (s.ariaExpanded = some "true" ↔ s.menuActive = true) ∧
    (s.ariaExpanded = some "false" ↔ s.menuActive = false)

/-! ## Helper lemmas -/

theorem jsEndsWith_empty (s : String) : jsEndsWith s "" = true := by
  simp [jsEndsWith, List.isSuffixOf]

theorem toggleTheme_eq (s : ThemeState) :
    toggleTheme s =
      { s with
          dataTheme := some (if s.dataTheme == some "dark" then "light" else "dark")
        , storedTheme := some (if s.dataTheme == some "dark" then "light" else "dark")
        , toggleLabel := some (if (if s.dataTheme == some "dark" then "light" else "dark") == "dark"
            then "Switch to light mode" else "Switch to dark mode") } :=
  rfl

theorem toggleTheme_dataTheme (s : ThemeState) :
    (toggleTheme s).dataTheme = some "light" ∨ (toggleTheme s).dataTheme = some "dark" := by
  by_cases h : (s.dataTheme == some "dark") = true <;> simp [toggleTheme_eq, h]

theorem initDarkMode_dataTheme (s : ThemeState) :
    (initDarkMode s).dataTheme = some "dark" ∨ (initDarkMode s).dataTheme = s.dataTheme := by
  by_cases h : (s.storedTheme == some "dark" || (isFalsyStr s.storedTheme && s.systemPrefersDark)) = true <;>
    simp [initDarkMode, h]

theorem themeAttrOk_applyThemeOp (op : ThemeOp) (s : ThemeState)
    (h : themeAttrOk s.dataTheme) : themeAttrOk (applyThemeOp op s).dataTheme := by
  cases op with
  | init =>
      rcases initDarkMode_dataTheme s with h1 | h1
      · simp [applyThemeOp, themeAttrOk, h1]
      · simp only [applyThemeOp, h1]
        exact h
  | toggle =>
      rcases toggleTheme_dataTheme s with h1 | h1 <;>
        simp [applyThemeOp, themeAttrOk, h1]

theorem themeAttrOk_applyThemeOps (ops : List ThemeOp) (s : ThemeState)
    (h : themeAttrOk s.dataTheme) : themeAttrOk (applyThemeOps ops s).dataTheme := by
  induction ops generalizing s with
  | nil => exact h
  | cons op ops ih => exact ih (applyThemeOp op s) (themeAttrOk_applyThemeOp op s h)

end PersonalSite

namespace PersonalSite

/-! ## Claim C2 -/

/-- Claim C2 is refuted on the code: from a page-load state with no
data-theme attribute and a stored dark preference, initialization
applies dark and one toggle then sets the attribute to the string
light, which is neither dark nor absent. -/
theorem C2_counterexample :
    (applyThemeOps [ThemeOp.init, ThemeOp.toggle]
        (ThemeState.mk none (some "dark") false none)).dataTheme = some "light" := by
  decide

/-- Claim C2, amended: in every state reachable by theme-controller
operations from a state whose data-theme attribute is dark, light or
absent, the attribute stays in that three-value range; initialization
only sets it to dark or leaves it unchanged, and the toggle sets it to
exactly dark or light, never any other value. -/
theorem C2_theorem (ops : List ThemeOp) (s : ThemeState) (h : themeAttrOk s.dataTheme) :
    themeAttrOk (applyThemeOps ops s).dataTheme ∧
      ((toggleTheme s).dataTheme = some "light" ∨ (toggleTheme s).dataTheme = some "dark") ∧
      ((initDarkMode s).dataTheme = some "dark" ∨ (initDarkMode s).dataTheme = s.dataTheme) :=
  ⟨themeAttrOk_applyThemeOps ops s h, toggleTheme_dataTheme s, initDarkMode_dataTheme s⟩

/-- Witness for C2 at a concrete state and operation sequence. -/
theorem C2_witness :
    themeAttrOk (applyThemeOps [ThemeOp.init, ThemeOp.toggle]
      (ThemeState.mk none none true none)).dataTheme :=
  (C2_theorem [ThemeOp.init, ThemeOp.toggle] (ThemeState.mk none none true none)
    (Or.inl rfl)).1

/-! ## Claim C5 -/

/-- Claim C5 is refuted on the code: from a state with the data-theme
attribute absent (the implicit light default at first visit), two
toggles leave the attribute set to the string light, not absent, so the
attribute does not return to its original value. -/
theorem C5_counterexample :
    (toggleTheme (toggleTheme (ThemeState.mk none none false none))).dataTheme ≠
      (ThemeState.mk none none false none).dataTheme := by
  decide

/-- Claim C5, amended: when the data-theme attribute is initially
present (dark or light) and the persisted value equals it, applying the
toggle twice returns both the attribute and the persisted value to
their original values; from an absent attribute a double toggle instead
leaves light applied and persisted; and every single toggle writes a
persisted value equal to the mode it just applied. -/
theorem C5_theorem (s : ThemeState) :
    ((s.dataTheme = some "dark" ∨ s.dataTheme = some "light") → s.storedTheme = s.dataTheme →
        (toggleTheme (toggleTheme s)).dataTheme = s.dataTheme ∧
          (toggleTheme (toggleTheme s)).storedTheme = s.storedTheme) ∧
      (s.dataTheme = none →
        (toggleTheme (toggleTheme s)).dataTheme = some "light" ∧
          (toggleTheme (toggleTheme s)).storedTheme = some "light") ∧
      (toggleTheme s).storedTheme = (toggleTheme s).dataTheme := by
  refine ⟨?_, ?_, ?_⟩
  · rintro (h | h) hst <;> simp [toggleTheme_eq, h, hst]
  · intro h
    simp [toggleTheme_eq, h]
  · simp [toggleTheme_eq]

/-- Witness for C5 at a concrete state with the dark attribute applied
and persisted. -/
theorem C5_witness :
    (toggleTheme (toggleTheme (ThemeState.mk (some "dark") (some "dark") false none))).dataTheme =
        (ThemeState.mk (some "dark") (some "dark") false none).dataTheme ∧
      (toggleTheme (toggleTheme (ThemeState.mk (some "dark") (some "dark") false none))).storedTheme =
        (ThemeState.mk (some "dark") (some "dark") false none).storedTheme :=
  (C5_theorem (ThemeState.mk (some "dark") (some "dark") false none)).1 (Or.inl rfl) rfl

/-! ## Claim C9 -/

/-- Claim C9 is refuted on the code: the empty string is a persisted
value other than dark, yet it is falsy in JavaScript, so with a
dark-preferring environment initialization still applies the dark
marker. -/
theorem C9_counterexample :
    (initDarkMode (ThemeState.mk none (some "") true none)).dataTheme = some "dark" := by
  decide

/-- Claim C9, amended: the system color-scheme preference is consulted
exactly when the persisted value is falsy, that is absent or the empty
string; any persisted non-empty value other than exactly dark results
in no dark marker being applied (the attribute is left unchanged), even
when the environment reports a dark preference. -/
theorem C9_theorem (s : ThemeState) :
    (s.storedTheme ≠ none → s.storedTheme ≠ some "" → s.storedTheme ≠ some "dark" →
        (initDarkMode s).dataTheme = s.dataTheme) ∧
      ((s.storedTheme = none ∨ s.storedTheme = some "") → s.systemPrefersDark = true →
        (initDarkMode s).dataTheme = some "dark") ∧
      (s.storedTheme = some "dark" → (initDarkMode s).dataTheme = some "dark") := by
  refine ⟨?_, ?_, ?_⟩
  · intro h1 h2 h3
    have hfal : isFalsyStr s.storedTheme = false := by
      cases hs : s.storedTheme with
      | none => exact absurd hs h1
      | some v =>
          simp only [isFalsyStr]
          have : v ≠ "" := fun hv => h2 (hv ▸ hs)
          simp [this]
    have hbeq : (s.storedTheme == some "dark") = false := by
      simp [h3]
    simp [initDarkMode, hbeq, hfal]
  · rintro (h | h) hsys <;> simp [initDarkMode, h, isFalsyStr, hsys]
  · intro h
    simp [initDarkMode, h]

/-- Witness for C9 at a concrete state with the persisted value light
and a dark-preferring environment. -/
theorem C9_witness :
    (initDarkMode (ThemeState.mk none (some "light") true none)).dataTheme =
      (ThemeState.mk none (some "light") true none).dataTheme :=
  (C9_theorem (ThemeState.mk none (some "light") true none)).1
    (by simp) (by simp) (by simp)

/-! ## Claim C4 -/

theorem ariaSynced_openMenu (s : NavState) : ariaSynced (openMenu s) := by
  unfold openMenu
  cases h : s.navLinks.head? <;> simp [ariaSynced, h]

theorem ariaSynced_closeMenu (s : NavState) : ariaSynced (closeMenu s) := by
  simp [ariaSynced, closeMenu]

theorem ariaSynced_applyNavOp (op : NavOp) (s : NavState) (h : ariaSynced s) :
    ariaSynced (applyNavOp op s) := by
  cases op with
  | openMenu => exact ariaSynced_openMenu s
  | closeMenu => exact ariaSynced_closeMenu s
  | toggleMenu =>
      by_cases hm : s.menuActive
      · simpa [applyNavOp, toggleMenu, hm] using ariaSynced_closeMenu s
      · simpa [applyNavOp, toggleMenu, hm] using ariaSynced_openMenu s
  | outsideClick => exact ariaSynced_closeMenu s
  | escape =>
      by_cases hm : s.menuActive
      · simp [applyNavOp, escapeKey, hm, ariaSynced, closeMenu]
      · simpa [applyNavOp, escapeKey, hm] using h

theorem ariaSynced_applyNavOps (ops : List NavOp) (s : NavState) (h : ariaSynced s) :
    ariaSynced (applyNavOps ops s) := by
  induction ops generalizing s with
  | nil => exact h
  | cons op ops ih => exact ih (applyNavOp op s) (ariaSynced_applyNavOp op s h)

/-- Claim C4: for every sequence of open, close, toggle, outside-click
and Escape operations starting from a state where the attribute and the
class agree (as on page load), after every operation the trigger's
`aria-expanded` attribute is the string true exactly when the menu
element carries the class active, and the string false exactly when it
does not. -/
theorem C4_theorem (ops : List NavOp) (s : NavState) (h : ariaSynced s) :
    ((applyNavOps ops s).ariaExpanded = some "true" ↔ (applyNavOps ops s).menuActive = true) ∧
      ((applyNavOps ops s).ariaExpanded = some "false" ↔ (applyNavOps ops s).menuActive = false) :=
  ariaSynced_applyNavOps ops s h

/-- Witness for C4 at a concrete closed page-load state and a concrete
operation sequence. -/
theorem C4_witness :
    ((applyNavOps [NavOp.toggleMenu, NavOp.escape, NavOp.outsideClick]
          (NavState.mk false (some "false") [1, 2] 0 9)).ariaExpanded = some "true" ↔
        (applyNavOps [NavOp.toggleMenu, NavOp.escape, NavOp.outsideClick]
          (NavState.mk false (some "false") [1, 2] 0 9)).menuActive = true) ∧
      ((applyNavOps [NavOp.toggleMenu, NavOp.escape, NavOp.outsideClick]
          (NavState.mk false (some "false") [1, 2] 0 9)).ariaExpanded = some "false" ↔
        (applyNavOps [NavOp.toggleMenu, NavOp.escape, NavOp.outsideClick]
          (NavState.mk false (some "false") [1, 2] 0 9)).menuActive = false) :=
  C4_theorem [NavOp.toggleMenu, NavOp.escape, NavOp.outsideClick]
    (NavState.mk false (some "false") [1, 2] 0 9) (by simp [ariaSynced])

/-! ## Claim C3 -/

/-- Claim C3 is refuted on the code: the keydown handler never consults
the class active, so with the menu closed and focus on the last link, a
Tab keydown reaching the menu still wraps focus to the first link and
prevents the default, contradicting that the wrap occurs only when the
menu is open. -/
theorem C3_counterexample :
    handleMenuKeydown (NavState.mk false (some "false") [1, 2] 2 0)
        (KeyEvent.mk "Tab" false) =
      (NavState.mk false (some "false") [1, 2] 1 0, true) := by
  decide

/-- Claim C3, amended: Tab while focus is on the last menu link wraps
focus to the first link, Shift+Tab while focus is on the first link
wraps to the last, both with the default prevented; the handler does
not consult the open state, so the wraps occur whenever such a keydown
reaches the menu, open or closed; and every key other than Tab passes
through unmodified with no preventDefault. -/
theorem C3_theorem (s : NavState) (e : KeyEvent) :
    (∀ l, e.key = "Tab" → e.shiftKey = false → s.navLinks.getLast? = some s.focused →
        s.navLinks.head? = some l →
        handleMenuKeydown s e = ({ s with focused := l }, true)) ∧
      (∀ l, e.key = "Tab" → e.shiftKey = true → s.navLinks.head? = some s.focused →
        s.navLinks.getLast? = some l →
        handleMenuKeydown s e = ({ s with focused := l }, true)) ∧
      (e.key ≠ "Tab" → handleMenuKeydown s e = (s, false)) := by
  refine ⟨?_, ?_, ?_⟩
  · intro l hk hs hlast hhead
    simp [handleMenuKeydown, hk, hs, hlast, hhead]
  · intro l hk hs hhead hlast
    simp [handleMenuKeydown, hk, hs, hhead, hlast]
  · intro hk
    simp [handleMenuKeydown, hk]

/-- Witness for C3 at a concrete two-link open menu with focus on the
last link. -/
theorem C3_witness :
    handleMenuKeydown (NavState.mk true (some "true") [4, 7] 7 0)
        (KeyEvent.mk "Tab" false) =
      (NavState.mk true (some "true") [4, 7] 4 0, true) :=
  (C3_theorem (NavState.mk true (some "true") [4, 7] 7 0) (KeyEvent.mk "Tab" false)).1
    4 rfl rfl rfl rfl

/-! ## Claim C10 -/

/-- Claim C10: when the menu contains exactly one focusable link and
that link holds keyboard focus, both Tab and Shift+Tab keydowns are
intercepted with the default prevented and focus re-assigned to that
same link, because the first and last links coincide. -/
theorem C10_theorem (a tid : Nat) (active : Bool) (aria : Option String) (shift : Bool) :
    handleMenuKeydown (NavState.mk active aria [a] a tid) (KeyEvent.mk "Tab" shift) =
      (NavState.mk active aria [a] a tid, true) := by
  cases shift <;> simp [handleMenuKeydown]

/-! ## Claim C1 -/

/-- Claim C1 is refuted on the code: with the overlay present and the
gallery nonempty, the guard is passed, and an absent close-button
element makes initialization raise a TypeError at the close-button
listener registration instead of being a silent no-op. -/
theorem C1_counterexample :
    (initLightbox (LightboxDoc.mk (some 1) (some 2) none [7])).raisedError =
      some "TypeError: cannot read addEventListener of null" := by
  decide

/-- Claim C1, amended: if the overlay element is absent or the set of
gallery images is empty, lightbox initialization is inert, attaching no
listeners and raising no error; the guard checks only those two
prerequisites, so with the overlay present and the gallery nonempty, an
absent close-button element causes initialization to raise an error
rather than become a silent no-op. -/
theorem C1_theorem (d : LightboxDoc) :
    ((d.lightbox = none ∨ d.galleryImages = []) →
        initLightbox d = { listeners := [], raisedError := none }) ∧
      (d.lightbox ≠ none → d.galleryImages ≠ [] → d.lightboxClose = none →
        (initLightbox d).raisedError ≠ none) := by
  constructor
  · intro h
    rcases h with h | h <;> simp [initLightbox, h]
  · intro h1 h2 h3
    simp [initLightbox, h1, h2, h3]

/-- Witness for C1 at a document with no overlay and at a document with
the close button missing. -/
theorem C1_witness :
    initLightbox (LightboxDoc.mk none (some 2) (some 3) [7]) =
        { listeners := [], raisedError := none } ∧
      (initLightbox (LightboxDoc.mk (some 1) (some 2) none [7])).raisedError ≠ none :=
  ⟨(C1_theorem (LightboxDoc.mk none (some 2) (some 3) [7])).1 (Or.inl rfl),
    (C1_theorem (LightboxDoc.mk (some 1) (some 2) none [7])).2 (by simp) (by simp) rfl⟩

/-! ## Claim C6 -/

/-- Claim C6: a navigation link is marked active (class active added
and `aria-current` set to page) exactly when the current path ends with
the link's target, or the path is the root slash and the target is
index.html, or the path ends with a slash and the target is index.html;
in particular a link targeting index.html is marked on the root path
and on every path ending in a slash, and not on the about page path;
and every non-matching link has both markers removed regardless of
prior state. -/
theorem C6_theorem (p : String) (l : NavLink) :
    ((updateLink p l).hasActiveClass = true ↔
        (jsEndsWith p l.href = true ∨ (p = "/" ∧ l.href = "index.html") ∨
          (jsEndsWith p "/" = true ∧ l.href = "index.html"))) ∧
      ((updateLink p l).ariaCurrent = some "page" ↔ (updateLink p l).hasActiveClass = true) ∧
      (l.href = "index.html" → (p = "/" ∨ jsEndsWith p "/" = true) →
        (updateLink p l).hasActiveClass = true) ∧
      (l.href = "index.html" → p = "/about.html" →
        (updateLink p l).hasActiveClass = false) ∧
      (linkIsActive p l.href = false →
        (updateLink p l).hasActiveClass = false ∧ (updateLink p l).ariaCurrent = none) := by
  have hiff : linkIsActive p l.href = true ↔
      (jsEndsWith p l.href = true ∨ (p = "/" ∧ l.href = "index.html") ∨
        (jsEndsWith p "/" = true ∧ l.href = "index.html")) := by
    simp [linkIsActive, or_assoc]
  refine ⟨?_, ?_, ?_, ?_, ?_⟩
  · by_cases h : linkIsActive p l.href = true
    · simp [updateLink, h, hiff.mp h]
    · rw [Bool.not_eq_true] at h
      simp only [updateLink, h]
      simpa [h] using hiff.symm
  · by_cases h : linkIsActive p l.href = true <;> simp [updateLink, h]
  · intro hh hp
    have : linkIsActive p l.href = true := by
      rcases hp with hp | hp <;> simp [linkIsActive, hp, hh]
    simp [updateLink, this]
  · intro hh hp
    have hfalse : linkIsActive p l.href = false := by
      rw [hh, hp]
      decide
    simp [updateLink, hfalse]
  · intro h
    simp [updateLink, h]

/-- Witness for C6 at the root path and a home link that previously
carried stale markers. -/
theorem C6_witness :
    ((updateLink "/" (NavLink.mk "index.html" false (some "page"))).hasActiveClass = true ↔
        (jsEndsWith "/" "index.html" = true ∨ ("/" = "/" ∧ "index.html" = "index.html") ∨
          (jsEndsWith "/" "/" = true ∧ "index.html" = "index.html"))) ∧
      (updateLink "/" (NavLink.mk "index.html" false (some "page"))).hasActiveClass = true :=
  ⟨(C6_theorem ("/") (NavLink.mk "index.html" false (some "page"))).1,
    (C6_theorem ("/") (NavLink.mk "index.html" false (some "page"))).2.2.1 rfl (Or.inl rfl)⟩

/-! ## Claim C7 -/

/-- Claim C7: a click on an anchor whose href is exactly the bare hash
never prevents the default browser action, never scrolls and never
moves focus; and when the href selects no existing element, the click
likewise falls through to the default behavior. -/
theorem C7_theorem (query : String → Option Nat) (href : String) :
    anchorClick "#" query =
        { preventedDefault := false, scrolledTo := none
        , tabindexSet := none, focusMovedTo := none } ∧
      (query href = none →
        anchorClick href query =
          { preventedDefault := false, scrolledTo := none
          , tabindexSet := none, focusMovedTo := none }) := by
  constructor
  · rfl
  · intro h
    by_cases hh : href = "#"
    · simp [anchorClick, hh]
    · simp [anchorClick, hh, h]

/-- Witness for C7 over an empty document and an unmatched fragment
selector. -/
theorem C7_witness :
    anchorClick "#" (fun _ => (none : Option Nat)) =
        { preventedDefault := false, scrolledTo := none
        , tabindexSet := none, focusMovedTo := none } ∧
      anchorClick "#missing" (fun _ => (none : Option Nat)) =
        { preventedDefault := false, scrolledTo := none
        , tabindexSet := none, focusMovedTo := none } :=
  ⟨(C7_theorem (fun _ => none) "#missing").1,
    (C7_theorem (fun _ => none) "#missing").2 rfl⟩

/-! ## Claim C8 -/

/-- Claim C8: a navigation link whose href attribute is the empty
string is marked active on every current page path, with the class
active added and `aria-current` set to page, because every string ends
with the empty string and so the ends-with rule holds vacuously. -/
theorem C8_theorem (p : String) (cls : Bool) (aria : Option String) :
    updateLink p (NavLink.mk "" cls aria) = NavLink.mk "" true (some "page") := by
  have h : linkIsActive p "" = true := by
    simp [linkIsActive, jsEndsWith_empty p]
  simp [updateLink, h]

end PersonalSite
